import Mathlib

/-
Verification of the SageMaker distributed-training orchestrator
(`python/graphstorm/sagemaker/sagemaker_train.py`).

The development shallowly embeds the orchestration logic:

* `launch_train_task` command-line selection and assembly are embedded as pure
  functions on strings and integers.
* The supervising closure `run` (started in a daemon thread) is embedded as a
  function from the child process's behaviour to the list of values it puts on
  the single-slot result queue.
* The `run_train` master and worker branches are embedded as functions that
  produce the sequence of protocol events executed (barrier, keep-alive start,
  result read, teardown, socket close, exit / upload), together with the final
  `err_code` and the process exit status.  Calls into the sibling `utils`
  module (`barrier_master`, `barrier`, `keep_alive`, `terminate_workers`,
  `wait_for_exit`) are opaque collaborators of this file and are modelled as
  atomic events at their call sites.
-/

namespace SagemakerTrain

/-! ## Builtin task types and command selection (`launch_train_task`, lines 83-98) -/

/-- Modelled from the spec: the constants `BUILTIN_TASK_*` are imported from the
`graphstorm.config` module, which is not part of the embedded source; the spec
refers to six builtin task types.  The claims proved below depend only on the
collection of the six values, not on the particular strings. -/
def BUILTIN_TASK_NODE_CLASSIFICATION : String := "node_classification"

/-- Builtin task type: node regression (imported constant, see
`BUILTIN_TASK_NODE_CLASSIFICATION`). -/
def BUILTIN_TASK_NODE_REGRESSION : String := "node_regression"

/-- Builtin task type: edge classification (imported constant). -/
def BUILTIN_TASK_EDGE_CLASSIFICATION : String := "edge_classification"

/-- Builtin task type: edge regression (imported constant). -/
def BUILTIN_TASK_EDGE_REGRESSION : String := "edge_regression"

/-- Builtin task type: link prediction (imported constant). -/
def BUILTIN_TASK_LINK_PREDICTION : String := "link_prediction"

/-- Builtin task type: multi-task learning (imported constant). -/
def BUILTIN_TASK_MULTI_TASK : String := "multi_task"

/-- The six builtin task types accepted by `launch_train_task`. -/
def builtinTaskTypes : List String :=
  [BUILTIN_TASK_NODE_CLASSIFICATION,
   BUILTIN_TASK_NODE_REGRESSION,
   BUILTIN_TASK_EDGE_CLASSIFICATION,
   BUILTIN_TASK_EDGE_REGRESSION,
   BUILTIN_TASK_LINK_PREDICTION,
   BUILTIN_TASK_MULTI_TASK]

/-- The `cmd` selection at the top of `launch_train_task` (lines 83-98): a
custom script always selects the generic launcher; otherwise the task type is
matched against the six builtin task types, and any other task type raises
`RuntimeError` (embedded as `Except.error` carrying the message). -/
def selectCmd (custom_script : Option String) (task_type : String) :
    Except String String :=
  if custom_script.isSome then
    Except.ok "graphstorm.run.launch"
  else if task_type = BUILTIN_TASK_NODE_CLASSIFICATION then
    Except.ok "graphstorm.run.gs_node_classification"
  else if task_type = BUILTIN_TASK_NODE_REGRESSION then
    Except.ok "graphstorm.run.gs_node_regression"
  else if task_type = BUILTIN_TASK_EDGE_CLASSIFICATION then
    Except.ok "graphstorm.run.gs_edge_classification"
  else if task_type = BUILTIN_TASK_EDGE_REGRESSION then
    Except.ok "graphstorm.run.gs_edge_regression"
  else if task_type = BUILTIN_TASK_LINK_PREDICTION then
    Except.ok "graphstorm.run.gs_link_prediction"
  else if task_type = BUILTIN_TASK_MULTI_TASK then
    Except.ok "graphstorm.run.gs_multi_task_learning"
  else
    Except.error ("Unsupported task type " ++ task_type)

/-! ## Launch command assembly (`launch_train_task`, lines 100-115) -/

/-- The `--num-trainers` value: `num_gpus if int(num_gpus) > 0 else 1`
(line 101). -/
def numTrainersArg (num_gpus : Int) : Int :=
  if num_gpus > 0 then num_gpus else 1

/-- The assembled `launch_cmd` list (lines 100-115).  `ld_library_path` is the
value of the `LD_LIBRARY_PATH` environment lookup on line 106 (the lookup
itself can raise `KeyError`; that possibility is modelled in the orchestrator's
fault model below). -/
def launch_cmd (cmd : String) (num_gpus : Int) (graph_config ip_list : String)
    (ld_library_path : String) (custom_script : Option String)
    (yaml_path save_model_path : String) (restore_model_path : Option String)
    (extra_args : List String) : List String :=
  ["python3", "-u", "-m", cmd,
   "--num-trainers", toString (numTrainersArg num_gpus),
   "--num-servers", "1",
   "--num-samplers", "0",
   "--part-config", graph_config,
   "--ip-config", ip_list,
   "--extra-envs", "LD_LIBRARY_PATH=" ++ ld_library_path ++ " ",
   "--ssh-port", "22",
   "--do-nid-remap", "False"]
  ++ (match custom_script with
      | some s => [s]
      | none => [])
  ++ ["--cf", yaml_path, "--save-model-path", save_model_path]
  ++ (match restore_model_path with
      | some p => ["--restore-model-path", p]
      | none => [])
  ++ extra_args

/-! ## The supervising closure `run` (lines 118-126) -/

/-- Behaviour of `subprocess.check_call(launch_cmd)` as observed by the
supervising closure: either the child process exits with some status code, or
starting/supervising the process itself raises an exception that is not a
`CalledProcessError`. -/
inductive ChildBehavior where
  | exits (code : Int)
  | raises
  deriving DecidableEq, Repr

/-- The supervising closure `run` (lines 118-126), embedded as the list of
values it puts on `state_q`, in order: `check_call` returns normally on a zero
exit (put `0`), raises `CalledProcessError` with the child's return code on a
nonzero exit (put `err.returncode`), and any other exception puts `-1`. -/
def run (b : ChildBehavior) : List Int :=
  match b with
  | ChildBehavior.exits code => if code = 0 then [0] else [code]
  | ChildBehavior.raises => [-1]

/-! ## Topology (`run_train`, lines 188-193) -/

/-- `world_size = len(hosts)` (line 191). -/
def worldSize (hosts : List String) : Nat := hosts.length

/-- Python `hosts.index(current_host)` (line 193): the index of the first
occurrence, `none` embedding the `ValueError` raised when the element is
absent. -/
def pyIndex : List String → String → Option Nat
  | [], _ => none
  | h :: t, x => if h = x then some 0 else (pyIndex t x).map (· + 1)

/-- `host_rank = hosts.index(current_host)` (line 193). -/
def hostRank (hosts : List String) (current_host : String) : Option Nat :=
  pyIndex hosts current_host

/-! ## Master accept loop (`run_train`, lines 217-220) -/

/-- The master's accept loop: `client_list = [None] * world_size`, then for
`i in range(1, world_size)` the `(i-1)`-th accepted connection is stored in
slot `i`.  `arrivals k` denotes the connection returned by the `k`-th call to
`sock.accept()`; connections are identified by numbers. -/
def acceptLoop (world_size : Nat) (arrivals : Nat → Nat) : List (Option Nat) :=
  (List.range' 1 (world_size - 1)).foldl
    (fun client_list i => client_list.set i (some (arrivals (i - 1))))
    (List.replicate world_size none)

/-! ## Worker connect loop (`run_train`, lines 223-231) -/

/-- Result of the worker's connect loop: whether `sock.connect` ever
succeeded, how many `connect` calls were made, and the total seconds slept
(`time.sleep(10)` after each failed attempt). -/
structure ConnectOutcome where
  connected : Bool
  attemptsMade : Nat
  totalSleep : Nat
  deriving DecidableEq, Repr

/-- The body of `for _ in range(30)` (lines 224-230): `fuel` is the number of
loop iterations remaining and `made` the number of `connect` calls already
made.  `attempt k` tells whether the `k`-th `connect` call succeeds; on
success the loop breaks, on failure it sleeps 10 seconds and retries.  When
the range is exhausted the loop simply ends: the source has no else-clause and
no failure check after the loop. -/
def connectLoopAux (attempt : Nat → Bool) : Nat → Nat → ConnectOutcome
  | 0, made => { connected := false, attemptsMade := made, totalSleep := 10 * made }
  | fuel + 1, made =>
    if attempt made then
      { connected := true, attemptsMade := made + 1, totalSleep := 10 * made }
    else
      connectLoopAux attempt fuel (made + 1)

/-- The worker's connect loop (lines 224-230) with its fixed budget of 30
attempts. -/
def connectLoop (attempt : Nat → Bool) : ConnectOutcome :=
  connectLoopAux attempt 30 0

/-! ## Model-artifact handling (`run_train`, lines 244-248 and 311-314) -/

/-- Python `str.rstrip('/')`: drop every trailing slash (line 246). -/
def rstripSlash (s : String) : String :=
  ((s.data.reverse.dropWhile (fun ch => ch = '/')).reverse).asString

/-- Python truthiness of the optional string argument: `None` and the empty
string are falsy. -/
def strTruthy : Option String → Bool
  | none => false
  | some s => !s.isEmpty

/-- `gs_model_artifact_s3` (lines 244-248): the trailing-slash-trimmed output
destination when `args.model_artifact_s3` is truthy, else `None`. -/
def gsModelArtifact : Option String → Option String
  | none => none
  | some s => if s.isEmpty then none else some (rstripSlash s)

/-- The guard of the upload step (line 313):
`gs_model_artifact_s3 and os.path.exists(save_model_path)`. -/
def uploadCond (gs_model_artifact_s3 : Option String)
    (save_model_path_exists : Bool) : Bool :=
  strTruthy gs_model_artifact_s3 && save_model_path_exists

/-! ## Orchestration traces (`run_train`, lines 263-314) -/

/-- Protocol events executed by `run_train` after the sockets are set up.
Calls into the opaque `utils` collaborators appear as atomic events at their
call sites. -/
inductive Event where
  /-- The master's accept loop (lines 218-220) completed. -/
  | workersAccepted
  /-- `barrier_master(client_list, world_size)` (line 265). -/
  | barrierMaster
  /-- The keep-alive thread was started (lines 268-272). -/
  | keepAliveStart
  /-- `launch_train_task` returned and the training thread runs (line 277). -/
  | taskLaunched
  /-- `err_code = state_q.get()` returned this value (line 288). -/
  | resultTaken (code : Int)
  /-- `task_end.set()` (line 293). -/
  | taskEndSet
  /-- `thread.join()` on the keep-alive thread returned (line 295). -/
  | keepAliveJoined
  /-- `terminate_workers(client_list, world_size)` (line 296). -/
  | terminateWorkers
  /-- Worker connect loop finished with the given outcome (lines 224-230). -/
  | connectDone (connected : Bool) (attemptsMade : Nat)
  /-- `barrier(sock)` (line 299). -/
  | barrierWorker
  /-- `wait_for_exit(sock)` returned (line 302). -/
  | waitForExit
  /-- `sock.close()` (line 305). -/
  | sockClose
  /-- `sys.exit(-1)` (line 309). -/
  | exitFailure
  /-- `upload_model_artifacts(...)` (line 314). -/
  | uploadArtifacts
  /-- `run_train` returned normally after line 314. -/
  | normalReturn
  deriving DecidableEq, Repr

/-- Exceptions that the `try` block of the master branch (lines 274-288) can
raise: `RuntimeError` (e.g. the unsupported-task-type error of
`launch_train_task`, line 98), or any other exception class (e.g. the
`KeyError` from the `os.environ['LD_LIBRARY_PATH']` lookup on line 106, which
runs inside `launch_train_task` before the training thread starts). -/
inductive TryFault where
  | runtimeError
  | otherError
  deriving DecidableEq, Repr

/-- What happens in the master's `try` block: either the launch succeeds and
the supervising closure delivers a result for the child's behaviour, or an
exception is raised before a result is obtained. -/
inductive MasterOutcome where
  | result (b : ChildBehavior)
  | fault (f : TryFault)
  deriving DecidableEq, Repr

/-- The single value `state_q.get()` returns (line 288), i.e. the one value
the supervising closure `run` delivered. -/
def supervisorCode (b : ChildBehavior) : Int :=
  (run b).headD 0

/-- Outcome of one process running `run_train`: the event trace, the final
`err_code`, the process exit status (0 for a normal return, the `sys.exit`
argument `-1` on the failure branch, 1 for an unhandled exception), and
whether an exception escaped `run_train`. -/
structure ProcRun where
  events : List Event
  errCode : Int
  exitStatus : Int
  uncaught : Bool
  deriving DecidableEq, Repr

/-- The teardown statements of the master branch (lines 293-296), in program
order. -/
def teardownEvents : List Event :=
  [Event.taskEndSet, Event.keepAliveJoined, Event.terminateWorkers]

/-- The shared epilogue of both branches (lines 305-314): close the socket;
exit with `-1` when `err_code` is nonzero; otherwise upload the artifacts when
the destination is configured and the save path exists, and return. -/
def epilogue (err_code : Int) (gs_model_artifact_s3 : Option String)
    (save_model_path_exists : Bool) : List Event × Int :=
  if err_code ≠ 0 then
    ([Event.sockClose, Event.exitFailure], -1)
  else
    ([Event.sockClose]
      ++ (if uploadCond gs_model_artifact_s3 save_model_path_exists then
            [Event.uploadArtifacts]
          else [])
      ++ [Event.normalReturn], 0)

/-- The master branch of `run_train` (lines 263-297 and 305-314).
`model_artifact_s3` is the raw `args.model_artifact_s3`.  A `RuntimeError`
in the `try` block is caught (lines 289-291) and mapped to `err_code = -1`,
after which teardown and the epilogue run; any other exception propagates out
of `run_train` (Python exits with status 1 on an unhandled exception), so
teardown and the epilogue are skipped. -/
def runTrainMaster (o : MasterOutcome) (model_artifact_s3 : Option String)
    (save_model_path_exists : Bool) : ProcRun :=
  let gs := gsModelArtifact model_artifact_s3
  let base := [Event.workersAccepted, Event.barrierMaster, Event.keepAliveStart]
  match o with
  | MasterOutcome.result b =>
    let c := supervisorCode b
    let ep := epilogue c gs save_model_path_exists
    { events := base ++ [Event.taskLaunched, Event.resultTaken c]
        ++ teardownEvents ++ ep.1,
      errCode := c, exitStatus := ep.2, uncaught := false }
  | MasterOutcome.fault TryFault.runtimeError =>
    let ep := epilogue (-1) gs save_model_path_exists
    { events := base ++ teardownEvents ++ ep.1,
      errCode := -1, exitStatus := ep.2, uncaught := false }
  | MasterOutcome.fault TryFault.otherError =>
    { events := base, errCode := 0, exitStatus := 1, uncaught := true }

/-- The worker branch of `run_train` (lines 221-231, 298-303 and 305-314):
run the connect loop, then `barrier(sock)` and `wait_for_exit(sock)` (opaque
collaborators, modelled as returning once the master's termination token
arrives or the connection closes), then the shared epilogue with `err_code`
still at its initial value 0.  The source proceeds past the connect loop and
into the barrier whether or not a connection was established. -/
def runTrainWorker (attempt : Nat → Bool) (model_artifact_s3 : Option String)
    (save_model_path_exists : Bool) : ProcRun :=
  let c := connectLoop attempt
  let ep := epilogue 0 (gsModelArtifact model_artifact_s3) save_model_path_exists
  { events := [Event.connectDone c.connected c.attemptsMade,
               Event.barrierWorker, Event.waitForExit] ++ ep.1,
    errCode := 0, exitStatus := ep.2, uncaught := false }

/-- `precedes tr a b`: in trace `tr`, every occurrence of event `a` comes
strictly before every occurrence of event `b`. -/
def precedes (tr : List Event) (a b : Event) : Prop :=
  ∀ i j : Nat, tr[i]? = some a → tr[j]? = some b → i < j

/-! ## Helper lemmas -/

theorem supervisorCode_exits (code : Int) :
    supervisorCode (ChildBehavior.exits code) = code := by
  by_cases h : code = 0 <;> simp [supervisorCode, run, h]

theorem supervisorCode_raises : supervisorCode ChildBehavior.raises = -1 := rfl

theorem epilogue_fst_err {err : Int} (g : Option String) (s : Bool)
    (h : err ≠ 0) : (epilogue err g s).1 = [Event.sockClose, Event.exitFailure] := by
  simp [epilogue, h]

theorem epilogue_fst_ok {err : Int} (g : Option String) (s : Bool)
    (h : err = 0) :
    (epilogue err g s).1 =
      Event.sockClose ::
        ((if uploadCond g s then [Event.uploadArtifacts] else [])
          ++ [Event.normalReturn]) := by
  simp [epilogue, h]

theorem epilogue_snd (err : Int) (g : Option String) (s : Bool) :
    (epilogue err g s).2 = if err ≠ 0 then -1 else 0 := by
  unfold epilogue
  split <;> simp_all

theorem epilogue_events_cases (err : Int) (g : Option String) (s : Bool)
    (e : Event) (he : e ∈ (epilogue err g s).1) :
    e = Event.sockClose ∨ e = Event.exitFailure ∨ e = Event.uploadArtifacts ∨
      e = Event.normalReturn := by
  unfold epilogue at he
  split at he <;> simp at he <;> tauto

theorem epilogue_sockClose_mem (err : Int) (g : Option String) (s : Bool) :
    Event.sockClose ∈ (epilogue err g s).1 := by
  unfold epilogue
  split <;> simp

theorem epilogue_upload_iff (err : Int) (g : Option String) (s : Bool) :
    Event.uploadArtifacts ∈ (epilogue err g s).1 ↔
      err = 0 ∧ uploadCond g s = true := by
  unfold epilogue
  split <;> rename_i h
  · simp [h]
  · simp at h
    simp [h]

theorem epilogue_exitFailure_iff (err : Int) (g : Option String) (s : Bool) :
    Event.exitFailure ∈ (epilogue err g s).1 ↔ err ≠ 0 := by
  unfold epilogue
  split <;> rename_i h
  · simp [h]
  · simp at h
    simp [h]

theorem epilogue_normalReturn_iff (err : Int) (g : Option String) (s : Bool) :
    Event.normalReturn ∈ (epilogue err g s).1 ↔ err = 0 := by
  unfold epilogue
  split <;> rename_i h
  · simp
    omega
  · simp at h
    simp [h]

theorem precedes_of_split (pre post : List Event) (a b : Event)
    (ha : a ∉ post) (hb : b ∉ pre) : precedes (pre ++ post) a b := by
  unfold precedes
  intro i j hi hj
  have hilt : i < pre.length := by
    by_contra hc
    push_neg at hc
    rw [List.getElem?_append, if_neg (by omega)] at hi
    exact ha (List.getElem?_mem hi)
  have hjge : pre.length ≤ j := by
    by_contra hc
    push_neg at hc
    rw [List.getElem?_append, if_pos hc] at hj
    exact hb (List.getElem?_mem hj)
  omega

theorem precedes_of_not_mem_left (tr : List Event) (a b : Event)
    (h : a ∉ tr) : precedes tr a b := by
  unfold precedes
  intro i j hi hj
  exact absurd (List.getElem?_mem hi) h

theorem precedes_of_not_mem_right (tr : List Event) (a b : Event)
    (h : b ∉ tr) : precedes tr a b := by
  unfold precedes
  intro i j hi hj
  exact absurd (List.getElem?_mem hj) h

/-! ## Claims -/

/-- C9: whenever `custom_script` is not `None`, `launch_train_task` selects the
generic command `graphstorm.run.launch` regardless of `task_type`, and the
`RuntimeError` "Unsupported task type" is raised exactly when `custom_script`
is `None` and `task_type` is not one of the six builtin task types. -/
theorem claim_c9_cmd_selection :
    (∀ cs tt, selectCmd (some cs) tt = Except.ok "graphstorm.run.launch") ∧
    (∀ tt, selectCmd none tt = Except.error ("Unsupported task type " ++ tt) ↔
        tt ∉ builtinTaskTypes) ∧
    (∀ cs tt msg, selectCmd (some cs) tt ≠ Except.error msg) := by
  refine ⟨fun cs tt => rfl, fun tt => ?_, fun cs tt msg => by simp [selectCmd]⟩
  by_cases h1 : tt = BUILTIN_TASK_NODE_CLASSIFICATION
  · subst h1
    simp [selectCmd, builtinTaskTypes]
  by_cases h2 : tt = BUILTIN_TASK_NODE_REGRESSION
  · subst h2
    simp [selectCmd, builtinTaskTypes, BUILTIN_TASK_NODE_CLASSIFICATION,
      BUILTIN_TASK_NODE_REGRESSION]
  by_cases h3 : tt = BUILTIN_TASK_EDGE_CLASSIFICATION
  · subst h3
    simp [selectCmd, builtinTaskTypes, BUILTIN_TASK_NODE_CLASSIFICATION,
      BUILTIN_TASK_NODE_REGRESSION, BUILTIN_TASK_EDGE_CLASSIFICATION]
  by_cases h4 : tt = BUILTIN_TASK_EDGE_REGRESSION
  · subst h4
    simp [selectCmd, builtinTaskTypes, BUILTIN_TASK_NODE_CLASSIFICATION,
      BUILTIN_TASK_NODE_REGRESSION, BUILTIN_TASK_EDGE_CLASSIFICATION,
      BUILTIN_TASK_EDGE_REGRESSION]
  by_cases h5 : tt = BUILTIN_TASK_LINK_PREDICTION
  · subst h5
    simp [selectCmd, builtinTaskTypes, BUILTIN_TASK_NODE_CLASSIFICATION,
      BUILTIN_TASK_NODE_REGRESSION, BUILTIN_TASK_EDGE_CLASSIFICATION,
      BUILTIN_TASK_EDGE_REGRESSION, BUILTIN_TASK_LINK_PREDICTION]
  by_cases h6 : tt = BUILTIN_TASK_MULTI_TASK
  · subst h6
    simp [selectCmd, builtinTaskTypes, BUILTIN_TASK_NODE_CLASSIFICATION,
      BUILTIN_TASK_NODE_REGRESSION, BUILTIN_TASK_EDGE_CLASSIFICATION,
      BUILTIN_TASK_EDGE_REGRESSION, BUILTIN_TASK_LINK_PREDICTION,
      BUILTIN_TASK_MULTI_TASK]
  · simp [selectCmd, builtinTaskTypes, h1, h2, h3, h4, h5, h6]

/-- Witness for C9 at a concrete custom script and a concrete unsupported
task type. -/
theorem claim_c9_cmd_selection_witness :
    selectCmd (some "train.py") "whatever" = Except.ok "graphstorm.run.launch" ∧
    selectCmd none "unknown_task" =
      Except.error ("Unsupported task type " ++ "unknown_task") :=
  ⟨claim_c9_cmd_selection.1 "train.py" "whatever",
   (claim_c9_cmd_selection.2.1 "unknown_task").2 (by decide)⟩

/-- C10: the `--num-trainers` argument of the assembled launch command is
`num_gpus` when `num_gpus > 0` and `1` otherwise, so the workload is never
configured with zero or negative trainers. -/
theorem claim_c10_num_trainers (cmd : String) (num_gpus : Int)
    (graph_config ip_list ld : String) (cs : Option String)
    (yaml save : String) (restore : Option String) (extra : List String) :
    (launch_cmd cmd num_gpus graph_config ip_list ld cs yaml save restore
        extra)[4]? = some "--num-trainers" ∧
    (launch_cmd cmd num_gpus graph_config ip_list ld cs yaml save restore
        extra)[5]? = some (toString (numTrainersArg num_gpus)) ∧
    (0 < num_gpus → numTrainersArg num_gpus = num_gpus) ∧
    (¬ 0 < num_gpus → numTrainersArg num_gpus = 1) ∧
    0 < numTrainersArg num_gpus := by
  refine ⟨rfl, rfl, fun h => by simp [numTrainersArg, h], fun h => ?_, ?_⟩
  · simp only [numTrainersArg]
    rw [if_neg (by omega)]
  · unfold numTrainersArg
    split <;> omega

/-- Witness for C10 at concrete inputs (both sides of the `int(num_gpus) > 0`
test). -/
theorem claim_c10_num_trainers_witness :
    numTrainersArg 4 = 4 ∧ numTrainersArg 0 = 1 :=
  ⟨(claim_c10_num_trainers "c" 4 "g" "ip" "ld" none "y" "s" none []).2.2.1
      (by decide),
   (claim_c10_num_trainers "c" 0 "g" "ip" "ld" none "y" "s" none []).2.2.2.1
      (by decide)⟩

/-- C4: per launch, the supervising closure delivers exactly one result value
to the result queue: `0` when the child exits with status `0`, the child's own
return code when it exits nonzero, and the sentinel `-1` when supervision
itself raises an unexpected exception. -/
theorem claim_c4_supervisor_single_result :
    (∀ b, (run b).length = 1) ∧
    (run (ChildBehavior.exits 0) = [0]) ∧
    (∀ code : Int, code ≠ 0 → run (ChildBehavior.exits code) = [code]) ∧
    run ChildBehavior.raises = [-1] := by
  refine ⟨fun b => ?_, rfl, fun code h => by simp [run, h], rfl⟩
  cases b with
  | exits code =>
    simp only [run]
    split <;> rfl
  | raises => rfl

/-- Witness for C4 at a concrete nonzero exit code. -/
theorem claim_c4_supervisor_single_result_witness :
    run (ChildBehavior.exits 7) = [7] :=
  claim_c4_supervisor_single_result.2.2.1 7 (by decide)

theorem connectLoopAux_spec (attempt : Nat → Bool) :
    ∀ (fuel made : Nat),
      made ≤ (connectLoopAux attempt fuel made).attemptsMade ∧
      (connectLoopAux attempt fuel made).attemptsMade ≤ made + fuel ∧
      (connectLoopAux attempt fuel made).totalSleep =
        10 * ((connectLoopAux attempt fuel made).attemptsMade -
          (if (connectLoopAux attempt fuel made).connected then 1 else 0)) ∧
      ((∀ k, made ≤ k → k < made + fuel → attempt k = false) →
        connectLoopAux attempt fuel made =
          { connected := false, attemptsMade := made + fuel,
            totalSleep := 10 * (made + fuel) }) := by
  intro fuel
  induction fuel with
  | zero =>
    intro made
    simp [connectLoopAux]
  | succ fuel ih =>
    intro made
    by_cases h : attempt made = true
    · simp only [connectLoopAux, h, if_pos]
      refine ⟨by omega, by omega, by simp, ?_⟩
      intro hall
      have hf := hall made (Nat.le_refl _) (by omega)
      rw [h] at hf
      cases hf
    · have hstep : connectLoopAux attempt (fuel + 1) made =
          connectLoopAux attempt fuel (made + 1) := by
        simp [connectLoopAux, h]
      rw [hstep]
      obtain ⟨ih1, ih2, ih3, ih4⟩ := ih (made + 1)
      refine ⟨by omega, by omega, ih3, ?_⟩
      intro hall
      have hall' : ∀ k, made + 1 ≤ k → k < made + 1 + fuel → attempt k = false :=
        fun k hk1 hk2 => hall k (by omega) (by omega)
      have heq : made + 1 + fuel = made + (fuel + 1) := by omega
      rw [← heq]
      exact ih4 hall'

/-- C3 is refuted by the source: when every one of the 30 connection attempts
fails, the `for` loop simply ends (there is no else-clause and no check after
the loop), the worker logs "Connected" and proceeds to the barrier with
`err_code` untouched; no nonzero exit happens at the connect loop. -/
theorem claim_c3_counterexample :
    (connectLoop (fun _ => false)).connected = false ∧
    (connectLoop (fun _ => false)).attemptsMade = 30 ∧
    (runTrainWorker (fun _ => false) none false).events[1]? =
      some Event.barrierWorker ∧
    (runTrainWorker (fun _ => false) none false).errCode = 0 ∧
    (runTrainWorker (fun _ => false) none false).exitStatus = 0 := by
  decide

/-- C3 (amended): the worker retries `connect` with a fixed 10-second sleep
after every failed attempt, making at most 30 attempts; when every attempt is
refused the loop exhausts its 30 attempts (having slept 300 seconds) and the
worker proceeds past the connect loop into the barrier instead of exiting —
the connect loop itself never terminates the process. -/
theorem claim_c3_connect_retry_budget (attempt : Nat → Bool)
    (a : Option String) (s : Bool) :
    (connectLoop attempt).attemptsMade ≤ 30 ∧
    (connectLoop attempt).totalSleep =
      10 * ((connectLoop attempt).attemptsMade -
        (if (connectLoop attempt).connected then 1 else 0)) ∧
    ((∀ k, k < 30 → attempt k = false) →
      connectLoop attempt =
        { connected := false, attemptsMade := 30, totalSleep := 300 } ∧
      (runTrainWorker attempt a s).events[0]? =
        some (Event.connectDone false 30) ∧
      (runTrainWorker attempt a s).events[1]? = some Event.barrierWorker ∧
      (runTrainWorker attempt a s).errCode = 0) := by
  obtain ⟨h1, h2, h3, h4⟩ := connectLoopAux_spec attempt 30 0
  refine ⟨by simpa [connectLoop] using h2, by simpa [connectLoop] using h3, ?_⟩
  intro hall
  have hc : connectLoop attempt =
      { connected := false, attemptsMade := 30, totalSleep := 300 } := by
    simpa [connectLoop] using h4 (fun k _ hk => hall k (by omega))
  refine ⟨hc, ?_, rfl, rfl⟩
  simp [runTrainWorker, hc]

/-- Witness for the amended C3 at the all-attempts-fail input. -/
theorem claim_c3_connect_retry_budget_witness :
    connectLoop (fun _ => false) =
      { connected := false, attemptsMade := 30, totalSleep := 300 } ∧
    (runTrainWorker (fun _ => false) none false).events[0]? =
      some (Event.connectDone false 30) ∧
    (runTrainWorker (fun _ => false) none false).events[1]? =
      some Event.barrierWorker ∧
    (runTrainWorker (fun _ => false) none false).errCode = 0 :=
  (claim_c3_connect_retry_budget (fun _ => false) none false).2.2
    (fun _ _ => rfl)

theorem runTrainMaster_result_events (b : ChildBehavior) (a : Option String)
    (s : Bool) :
    (runTrainMaster (MasterOutcome.result b) a s).events =
      [Event.workersAccepted, Event.barrierMaster, Event.keepAliveStart,
       Event.taskLaunched, Event.resultTaken (supervisorCode b),
       Event.taskEndSet, Event.keepAliveJoined, Event.terminateWorkers]
      ++ (epilogue (supervisorCode b) (gsModelArtifact a) s).1 := by
  simp [runTrainMaster, teardownEvents]

theorem runTrainMaster_rte_events (a : Option String) (s : Bool) :
    (runTrainMaster (MasterOutcome.fault TryFault.runtimeError) a s).events =
      [Event.workersAccepted, Event.barrierMaster, Event.keepAliveStart,
       Event.taskEndSet, Event.keepAliveJoined, Event.terminateWorkers,
       Event.sockClose, Event.exitFailure] := by
  simp [runTrainMaster, teardownEvents,
    epilogue_fst_err _ _ (by decide : (-1 : Int) ≠ 0)]

theorem runTrainMaster_other_events (a : Option String) (s : Bool) :
    (runTrainMaster (MasterOutcome.fault TryFault.otherError) a s).events =
      [Event.workersAccepted, Event.barrierMaster, Event.keepAliveStart] := rfl

theorem runTrainWorker_events (attempt : Nat → Bool) (a : Option String)
    (s : Bool) :
    (runTrainWorker attempt a s).events =
      [Event.connectDone (connectLoop attempt).connected
         (connectLoop attempt).attemptsMade,
       Event.barrierWorker, Event.waitForExit]
      ++ (epilogue 0 (gsModelArtifact a) s).1 := by
  simp [runTrainWorker]

theorem epilogue_no_protocol_events (err : Int) (g : Option String) (s : Bool) :
    Event.taskEndSet ∉ (epilogue err g s).1 ∧
    Event.keepAliveJoined ∉ (epilogue err g s).1 ∧
    Event.terminateWorkers ∉ (epilogue err g s).1 ∧
    ∀ c : Int, Event.resultTaken c ∉ (epilogue err g s).1 := by
  refine ⟨fun h => ?_, fun h => ?_, fun h => ?_, fun c h => ?_⟩ <;>
    rcases epilogue_events_cases _ _ _ _ h with h' | h' | h' | h' <;> simp_all

/-- C1: the final classification matches the workload result.  With child exit
code `K`: `err_code = K`; for `K = 0` the process does not exit on the failure
branch and proceeds to the optional upload step; for `K ≠ 0`, and likewise when
the supervisor recorded the `-1` sentinel, the process exits with the nonzero
status `-1`. -/
theorem claim_c1_exit_classification (K : Int) (a : Option String) (s : Bool) :
    (runTrainMaster (MasterOutcome.result (ChildBehavior.exits K)) a s).errCode
      = K ∧
    (K = 0 →
      (runTrainMaster (MasterOutcome.result (ChildBehavior.exits K)) a
        s).exitStatus = 0 ∧
      Event.exitFailure ∉
        (runTrainMaster (MasterOutcome.result (ChildBehavior.exits K)) a
          s).events ∧
      Event.normalReturn ∈
        (runTrainMaster (MasterOutcome.result (ChildBehavior.exits K)) a
          s).events) ∧
    (K ≠ 0 →
      (runTrainMaster (MasterOutcome.result (ChildBehavior.exits K)) a
        s).exitStatus = -1 ∧
      Event.exitFailure ∈
        (runTrainMaster (MasterOutcome.result (ChildBehavior.exits K)) a
          s).events) ∧
    (runTrainMaster (MasterOutcome.result ChildBehavior.raises) a s).errCode
      = -1 ∧
    (runTrainMaster (MasterOutcome.result ChildBehavior.raises) a
      s).exitStatus = -1 := by
  refine ⟨?_, fun hK => ⟨?_, ?_, ?_⟩, fun hK => ⟨?_, ?_⟩, ?_, ?_⟩
  · simp [runTrainMaster, supervisorCode_exits]
  · simp [runTrainMaster, epilogue_snd, supervisorCode_exits, hK]
  · rw [runTrainMaster_result_events]
    simp [supervisorCode_exits, hK, epilogue_exitFailure_iff]
  · rw [runTrainMaster_result_events]
    simp [supervisorCode_exits, hK, epilogue_normalReturn_iff]
  · simp [runTrainMaster, epilogue_snd, supervisorCode_exits, hK]
  · rw [runTrainMaster_result_events]
    simp [supervisorCode_exits, hK, epilogue_exitFailure_iff]
  · simp [runTrainMaster, supervisorCode_raises]
  · simp [runTrainMaster, epilogue_snd, supervisorCode_raises]

/-- Witness for C1 at `K = 0` (success) and `K = 7` (failure). -/
theorem claim_c1_exit_classification_witness :
    ((runTrainMaster (MasterOutcome.result (ChildBehavior.exits 0)) none
        false).exitStatus = 0 ∧
      Event.exitFailure ∉
        (runTrainMaster (MasterOutcome.result (ChildBehavior.exits 0)) none
          false).events ∧
      Event.normalReturn ∈
        (runTrainMaster (MasterOutcome.result (ChildBehavior.exits 0)) none
          false).events) ∧
    ((runTrainMaster (MasterOutcome.result (ChildBehavior.exits 7)) none
        false).exitStatus = -1 ∧
      Event.exitFailure ∈
        (runTrainMaster (MasterOutcome.result (ChildBehavior.exits 7)) none
          false).events) :=
  ⟨(claim_c1_exit_classification 0 none false).2.1 rfl,
   (claim_c1_exit_classification 7 none false).2.2.1 (by decide)⟩

/-- C2 is refuted by the source: the `except` clause catches only
`RuntimeError`, so a non-`RuntimeError` exception in the `try` block (e.g. the
`KeyError` raised by `os.environ['LD_LIBRARY_PATH']` on line 106, inside
`launch_train_task`) propagates out of `run_train`, and none of the teardown
statements (keep-alive cancellation, keep-alive join, termination broadcast,
socket close) runs on that path. -/
theorem claim_c2_counterexample :
    (runTrainMaster (MasterOutcome.fault TryFault.otherError) none
      false).uncaught = true ∧
    Event.taskEndSet ∉
      (runTrainMaster (MasterOutcome.fault TryFault.otherError) none
        false).events ∧
    Event.keepAliveJoined ∉
      (runTrainMaster (MasterOutcome.fault TryFault.otherError) none
        false).events ∧
    Event.terminateWorkers ∉
      (runTrainMaster (MasterOutcome.fault TryFault.otherError) none
        false).events ∧
    Event.sockClose ∉
      (runTrainMaster (MasterOutcome.fault TryFault.otherError) none
        false).events := by
  decide

/-- C2 (amended): a `RuntimeError` raised in the master's main control flow
after the barrier — the only exception class the `except` clause catches — is
converted to `err_code = -1` rather than propagated, and teardown (keep-alive
cancellation event set, keep-alive thread join, termination broadcast, socket
close) runs on that error path exactly as on the normal path; an exception of
any other class propagates and skips teardown. -/
theorem claim_c2_runtime_error_caught (o : MasterOutcome) (a : Option String)
    (s : Bool) (h : o ≠ MasterOutcome.fault TryFault.otherError) :
    (runTrainMaster o a s).uncaught = false ∧
    (o = MasterOutcome.fault TryFault.runtimeError →
      (runTrainMaster o a s).errCode = -1 ∧
      (runTrainMaster o a s).exitStatus = -1) ∧
    Event.taskEndSet ∈ (runTrainMaster o a s).events ∧
    Event.keepAliveJoined ∈ (runTrainMaster o a s).events ∧
    Event.terminateWorkers ∈ (runTrainMaster o a s).events ∧
    Event.sockClose ∈ (runTrainMaster o a s).events := by
  cases o with
  | result b =>
    rw [runTrainMaster_result_events]
    refine ⟨rfl, by simp, by simp, by simp, by simp, ?_⟩
    simp [epilogue_sockClose_mem]
  | fault f =>
    cases f with
    | runtimeError =>
      rw [runTrainMaster_rte_events]
      refine ⟨rfl, fun _ => ⟨rfl, ?_⟩, by simp, by simp, by simp, by simp⟩
      simp [runTrainMaster, epilogue_snd]
    | otherError => exact absurd rfl h

/-- Witness for the amended C2 on the caught-`RuntimeError` path. -/
theorem claim_c2_runtime_error_caught_witness :
    (runTrainMaster (MasterOutcome.fault TryFault.runtimeError) none
      false).uncaught = false ∧
    (runTrainMaster (MasterOutcome.fault TryFault.runtimeError) none
      false).errCode = -1 ∧
    (runTrainMaster (MasterOutcome.fault TryFault.runtimeError) none
      false).exitStatus = -1 ∧
    Event.taskEndSet ∈
      (runTrainMaster (MasterOutcome.fault TryFault.runtimeError) none
        false).events ∧
    Event.keepAliveJoined ∈
      (runTrainMaster (MasterOutcome.fault TryFault.runtimeError) none
        false).events ∧
    Event.terminateWorkers ∈
      (runTrainMaster (MasterOutcome.fault TryFault.runtimeError) none
        false).events ∧
    Event.sockClose ∈
      (runTrainMaster (MasterOutcome.fault TryFault.runtimeError) none
        false).events := by
  have h := claim_c2_runtime_error_caught
    (MasterOutcome.fault TryFault.runtimeError) none false (by decide)
  exact ⟨h.1, (h.2.1 rfl).1, (h.2.1 rfl).2, h.2.2.1, h.2.2.2.1,
    h.2.2.2.2.1, h.2.2.2.2.2⟩

/-- C5: in every master execution, the workload result is taken from the
result queue before the termination token is sent; the keep-alive cancellation
event is set and the keep-alive thread joined before `terminate_workers`; and
the socket is not closed before termination has been broadcast. -/
theorem claim_c5_master_ordering (o : MasterOutcome) (a : Option String)
    (s : Bool) :
    (∀ c : Int, precedes (runTrainMaster o a s).events (Event.resultTaken c)
      Event.terminateWorkers) ∧
    precedes (runTrainMaster o a s).events Event.taskEndSet
      Event.terminateWorkers ∧
    precedes (runTrainMaster o a s).events Event.keepAliveJoined
      Event.terminateWorkers ∧
    precedes (runTrainMaster o a s).events Event.terminateWorkers
      Event.sockClose := by
  cases o with
  | result b =>
    rw [runTrainMaster_result_events]
    refine ⟨fun c => ?_, ?_, ?_, ?_⟩
    · exact precedes_of_split
        [Event.workersAccepted, Event.barrierMaster, Event.keepAliveStart,
         Event.taskLaunched, Event.resultTaken (supervisorCode b)]
        ([Event.taskEndSet, Event.keepAliveJoined, Event.terminateWorkers]
          ++ (epilogue (supervisorCode b) (gsModelArtifact a) s).1)
        _ _
        (by simp [(epilogue_no_protocol_events _ _ _).2.2.2 c])
        (by simp)
    · exact precedes_of_split
        [Event.workersAccepted, Event.barrierMaster, Event.keepAliveStart,
         Event.taskLaunched, Event.resultTaken (supervisorCode b),
         Event.taskEndSet, Event.keepAliveJoined]
        ([Event.terminateWorkers]
          ++ (epilogue (supervisorCode b) (gsModelArtifact a) s).1)
        _ _
        (by simp [(epilogue_no_protocol_events _ _ _).1])
        (by simp)
    · exact precedes_of_split
        [Event.workersAccepted, Event.barrierMaster, Event.keepAliveStart,
         Event.taskLaunched, Event.resultTaken (supervisorCode b),
         Event.taskEndSet, Event.keepAliveJoined]
        ([Event.terminateWorkers]
          ++ (epilogue (supervisorCode b) (gsModelArtifact a) s).1)
        _ _
        (by simp [(epilogue_no_protocol_events _ _ _).2.1])
        (by simp)
    · exact precedes_of_split
        [Event.workersAccepted, Event.barrierMaster, Event.keepAliveStart,
         Event.taskLaunched, Event.resultTaken (supervisorCode b),
         Event.taskEndSet, Event.keepAliveJoined, Event.terminateWorkers]
        ((epilogue (supervisorCode b) (gsModelArtifact a) s).1)
        _ _
        ((epilogue_no_protocol_events _ _ _).2.2.1)
        (by simp)
  | fault f =>
    cases f with
    | runtimeError =>
      rw [runTrainMaster_rte_events]
      refine ⟨fun c => ?_, ?_, ?_, ?_⟩
      · exact precedes_of_not_mem_left _ _ _ (by simp)
      · exact precedes_of_split
          [Event.workersAccepted, Event.barrierMaster, Event.keepAliveStart,
           Event.taskEndSet, Event.keepAliveJoined]
          [Event.terminateWorkers, Event.sockClose, Event.exitFailure]
          _ _ (by decide) (by decide)
      · exact precedes_of_split
          [Event.workersAccepted, Event.barrierMaster, Event.keepAliveStart,
           Event.taskEndSet, Event.keepAliveJoined]
          [Event.terminateWorkers, Event.sockClose, Event.exitFailure]
          _ _ (by decide) (by decide)
      · exact precedes_of_split
          [Event.workersAccepted, Event.barrierMaster, Event.keepAliveStart,
           Event.taskEndSet, Event.keepAliveJoined, Event.terminateWorkers]
          [Event.sockClose, Event.exitFailure]
          _ _ (by decide) (by decide)
    | otherError =>
      rw [runTrainMaster_other_events]
      exact ⟨fun c => precedes_of_not_mem_right _ _ _ (by decide),
        precedes_of_not_mem_right _ _ _ (by decide),
        precedes_of_not_mem_right _ _ _ (by decide),
        precedes_of_not_mem_left _ _ _ (by decide)⟩

/-- Witness for C5 on the failing-workload master trace: result taken at
index 4, task-end set at 5, keep-alive joined at 6, termination broadcast at
7, socket closed at 8. -/
theorem claim_c5_master_ordering_witness :
    (4 : Nat) < 7 ∧ (5 : Nat) < 7 ∧ (6 : Nat) < 7 ∧ (7 : Nat) < 8 :=
  ⟨(claim_c5_master_ordering (MasterOutcome.result (ChildBehavior.exits 1))
      none false).1 1 4 7 (by decide) (by decide),
   (claim_c5_master_ordering (MasterOutcome.result (ChildBehavior.exits 1))
      none false).2.1 5 7 (by decide) (by decide),
   (claim_c5_master_ordering (MasterOutcome.result (ChildBehavior.exits 1))
      none false).2.2.1 6 7 (by decide) (by decide),
   (claim_c5_master_ordering (MasterOutcome.result (ChildBehavior.exits 1))
      none false).2.2.2 7 8 (by decide) (by decide)⟩

/-- C6: for every worker and every workload outcome, the worker branch leaves
`err_code` at 0 and the worker process exits with status 0 once
`wait_for_exit` returns (termination received or connection closed); workers
never inherit the workload's exit code, while the master exits nonzero when
the workload failed. -/
theorem claim_c6_worker_exits_zero (attempt : Nat → Bool) (a : Option String)
    (s : Bool) (K : Int) :
    (runTrainWorker attempt a s).errCode = 0 ∧
    (runTrainWorker attempt a s).exitStatus = 0 ∧
    Event.exitFailure ∉ (runTrainWorker attempt a s).events ∧
    Event.waitForExit ∈ (runTrainWorker attempt a s).events ∧
    (K ≠ 0 →
      (runTrainMaster (MasterOutcome.result (ChildBehavior.exits K)) a
        s).exitStatus = -1) := by
  refine ⟨rfl, ?_, ?_, ?_, fun hK => ?_⟩
  · simp [runTrainWorker, epilogue_snd]
  · rw [runTrainWorker_events]
    simp [epilogue_exitFailure_iff]
  · rw [runTrainWorker_events]
    simp
  · simp [runTrainMaster, epilogue_snd, supervisorCode_exits, hK]

/-- Witness for C6 with a failing workload (`K = 1`). -/
theorem claim_c6_worker_exits_zero_witness :
    (runTrainWorker (fun _ => true) none false).errCode = 0 ∧
    (runTrainWorker (fun _ => true) none false).exitStatus = 0 ∧
    Event.exitFailure ∉ (runTrainWorker (fun _ => true) none false).events ∧
    Event.waitForExit ∈ (runTrainWorker (fun _ => true) none false).events ∧
    (runTrainMaster (MasterOutcome.result (ChildBehavior.exits 1)) none
      false).exitStatus = -1 := by
  have h := claim_c6_worker_exits_zero (fun _ => true) none false 1
  exact ⟨h.1, h.2.1, h.2.2.1, h.2.2.2.1, h.2.2.2.2 (by decide)⟩

theorem runTrainMaster_upload_iff (o : MasterOutcome) (a : Option String)
    (s : Bool) :
    Event.uploadArtifacts ∈ (runTrainMaster o a s).events ↔
      (runTrainMaster o a s).errCode = 0 ∧
      o ≠ MasterOutcome.fault TryFault.otherError ∧
      uploadCond (gsModelArtifact a) s = true := by
  cases o with
  | result b =>
    rw [runTrainMaster_result_events]
    simp [runTrainMaster, epilogue_upload_iff]
  | fault f =>
    cases f with
    | runtimeError =>
      rw [runTrainMaster_rte_events]
      simp [runTrainMaster]
    | otherError =>
      rw [runTrainMaster_other_events]
      simp

theorem runTrainWorker_upload_iff (attempt : Nat → Bool) (a : Option String)
    (s : Bool) :
    Event.uploadArtifacts ∈ (runTrainWorker attempt a s).events ↔
      uploadCond (gsModelArtifact a) s = true := by
  rw [runTrainWorker_events]
  simp [epilogue_upload_iff]

/-- C7: the artifact upload runs only when the final `err_code` is 0 and the
output destination was configured and the local save path exists; a failing
final result exits (status `-1`) before any upload; with no configured
destination the upload is skipped on every path, master and worker alike. -/
theorem claim_c7_upload_guard (o : MasterOutcome) (attempt : Nat → Bool)
    (a : Option String) (s : Bool) :
    (Event.uploadArtifacts ∈ (runTrainMaster o a s).events →
      (runTrainMaster o a s).errCode = 0 ∧
      strTruthy (gsModelArtifact a) = true ∧ s = true) ∧
    ((runTrainMaster o a s).errCode ≠ 0 →
      Event.uploadArtifacts ∉ (runTrainMaster o a s).events ∧
      (runTrainMaster o a s).exitStatus = -1) ∧
    (a = none →
      Event.uploadArtifacts ∉ (runTrainMaster o a s).events ∧
      Event.uploadArtifacts ∉ (runTrainWorker attempt a s).events) ∧
    (Event.uploadArtifacts ∈ (runTrainWorker attempt a s).events →
      strTruthy (gsModelArtifact a) = true ∧ s = true) := by
  refine ⟨fun h => ?_, fun h => ⟨?_, ?_⟩, fun h => ⟨?_, ?_⟩, fun h => ?_⟩
  · obtain ⟨h1, -, h3⟩ := (runTrainMaster_upload_iff o a s).1 h
    simp only [uploadCond, Bool.and_eq_true] at h3
    exact ⟨h1, h3.1, h3.2⟩
  · intro hmem
    exact h ((runTrainMaster_upload_iff o a s).1 hmem).1
  · cases o with
    | result b =>
      simp only [runTrainMaster] at h
      simp [runTrainMaster, epilogue_snd, h]
    | fault f =>
      cases f with
      | runtimeError => simp [runTrainMaster, epilogue_snd]
      | otherError =>
        simp only [runTrainMaster] at h
        exact absurd rfl h
  · intro hmem
    have h3 := ((runTrainMaster_upload_iff o a s).1 hmem).2.2
    rw [h] at h3
    simp [uploadCond, gsModelArtifact, strTruthy] at h3
  · intro hmem
    have h3 := (runTrainWorker_upload_iff attempt a s).1 hmem
    rw [h] at h3
    simp [uploadCond, gsModelArtifact, strTruthy] at h3
  · have h3 := (runTrainWorker_upload_iff attempt a s).1 h
    simp only [uploadCond, Bool.and_eq_true] at h3
    exact h3

/-- Witness for C7: upload happens on the successful, configured master run
with its guards satisfied, and a failing run skips the upload and exits. -/
theorem claim_c7_upload_guard_witness :
    ((runTrainMaster (MasterOutcome.result (ChildBehavior.exits 0))
        (some "s3://bucket/path/") true).errCode = 0 ∧
      strTruthy (gsModelArtifact (some "s3://bucket/path/")) = true ∧
      true = true) ∧
    Event.uploadArtifacts ∉
      (runTrainMaster (MasterOutcome.result (ChildBehavior.exits 3))
        (some "s3://bucket/path/") true).events ∧
    (runTrainMaster (MasterOutcome.result (ChildBehavior.exits 3))
      (some "s3://bucket/path/") true).exitStatus = -1 := by
  have h0 := (claim_c7_upload_guard
    (MasterOutcome.result (ChildBehavior.exits 0)) (fun _ => true)
    (some "s3://bucket/path/") true).1 (by decide)
  have h3 := (claim_c7_upload_guard
    (MasterOutcome.result (ChildBehavior.exits 3)) (fun _ => true)
    (some "s3://bucket/path/") true).2.1 (by decide)
  exact ⟨h0, h3.1, h3.2⟩

theorem pyIndex_spec (x : String) : ∀ (xs : List String) (r : Nat),
    pyIndex xs x = some r →
      xs[r]? = some x ∧ ∀ j, j < r → xs[j]? ≠ some x := by
  intro xs
  induction xs with
  | nil => intro r hr; simp [pyIndex] at hr
  | cons h t ih =>
    intro r hr
    by_cases hx : h = x
    · simp [pyIndex, hx] at hr
      subst hr
      exact ⟨by simp [hx], fun j hj => absurd hj (by omega)⟩
    · simp [pyIndex, hx] at hr
      obtain ⟨r', hr', rfl⟩ := hr
      obtain ⟨h1, h2⟩ := ih r' hr'
      refine ⟨by simpa using h1, ?_⟩
      intro j hj
      match j with
      | 0 => simpa using hx
      | j + 1 =>
        have := h2 j (by omega)
        simpa using this

theorem acceptFold_getElem (arrivals : Nat → Nat) :
    ∀ (m s : Nat) (cl : List (Option Nat)) (j : Nat),
      ((List.range' s m).foldl
        (fun client_list i => client_list.set i (some (arrivals (i - 1))))
        cl)[j]? =
      if s ≤ j ∧ j < s + m ∧ j < cl.length then some (some (arrivals (j - 1)))
      else cl[j]? := by
  intro m
  induction m with
  | zero =>
    intro s cl j
    have h0 : ¬(s ≤ j ∧ j < s + 0 ∧ j < cl.length) := by omega
    rw [if_neg h0]
    simp
  | succ m ih =>
    intro s cl j
    rw [List.range'_succ s m 1]
    simp only [List.foldl_cons]
    rw [ih (s + 1) (cl.set s (some (arrivals (s - 1)))) j]
    rw [List.length_set]
    rw [List.getElem?_set]
    rcases Nat.lt_trichotomy j s with hlt | heq | hgt
    · have c1 : ¬(s + 1 ≤ j ∧ j < s + 1 + m ∧ j < cl.length) := by omega
      have c2 : ¬(s ≤ j ∧ j < s + (m + 1) ∧ j < cl.length) := by omega
      have c3 : ¬(s = j) := by omega
      simp [c1, c2, c3]
    · subst heq
      have c1 : ¬(j + 1 ≤ j ∧ j < j + 1 + m ∧ j < cl.length) := by omega
      by_cases hl : j < cl.length
      · have c2 : j ≤ j ∧ j < j + (m + 1) ∧ j < cl.length := by omega
        simp [c1, c2, hl]
      · have c2 : ¬(j ≤ j ∧ j < j + (m + 1) ∧ j < cl.length) := by omega
        simp [c1, c2, hl]
        omega
    · have c3 : ¬(s = j) := by omega
      by_cases hl : j < cl.length
      · by_cases hin : j < s + 1 + m
        · have c1 : s + 1 ≤ j ∧ j < s + 1 + m ∧ j < cl.length := by omega
          have c2 : s ≤ j ∧ j < s + (m + 1) ∧ j < cl.length := by omega
          simp [c1, c2, c3]
        · have c1 : ¬(s + 1 ≤ j ∧ j < s + 1 + m ∧ j < cl.length) := by omega
          have c2 : ¬(s ≤ j ∧ j < s + (m + 1) ∧ j < cl.length) := by omega
          simp [c1, c2, c3]
      · have c1 : ¬(s + 1 ≤ j ∧ j < s + 1 + m ∧ j < cl.length) := by omega
        have c2 : ¬(s ≤ j ∧ j < s + (m + 1) ∧ j < cl.length) := by omega
        simp [c1, c2, c3]

theorem acceptLoop_eq (N : Nat) (arrivals : Nat → Nat) (hN : 1 ≤ N) :
    acceptLoop N arrivals =
      none :: (List.range' 1 (N - 1)).map (fun i => some (arrivals (i - 1))) := by
  apply List.ext_getElem?
  intro j
  unfold acceptLoop
  rw [acceptFold_getElem]
  rw [List.length_replicate]
  match j with
  | 0 =>
    have h0 : ¬(1 ≤ 0 ∧ 0 < 1 + (N - 1) ∧ 0 < N) := by omega
    rw [if_neg h0, List.getElem?_replicate, if_pos (by omega : 0 < N)]
    simp
  | j + 1 =>
    by_cases hj : j + 1 < N
    · have c : 1 ≤ j + 1 ∧ j + 1 < 1 + (N - 1) ∧ j + 1 < N := by omega
      simp only [c, and_self, if_pos, List.getElem?_cons_succ, List.getElem?_map]
      rw [List.getElem?_range' _ _ (by omega : j < N - 1)]
      simp
    · have c : ¬(1 ≤ j + 1 ∧ j + 1 < 1 + (N - 1) ∧ j + 1 < N) := by omega
      simp only [c, if_neg, not_false_iff, List.getElem?_replicate,
        List.getElem?_cons_succ, List.getElem?_map]
      rw [List.getElem?_eq_none (by simp [List.length_range']; omega)]
      simp [hj]

/-- C8: rank is the index of the first occurrence of the current host, world
size is the host-list length, and for every arrival order the master's accept
loop fills exactly slots `1..N-1` of its `client_list` (slot `i` with the
`(i-1)`-th accepted connection, slot 0 stays `None`), i.e. exactly `N-1`
connections are stored; the accept loop completes before the master's
barrier. -/
theorem claim_c8_topology_accept (hosts : List String) (current : String)
    (arrivals : Nat → Nat) (r : Nat)
    (hN : 2 ≤ worldSize hosts) (hr : hostRank hosts current = some r) :
    r < worldSize hosts ∧
    hosts[r]? = some current ∧
    (∀ j, j < r → hosts[j]? ≠ some current) ∧
    worldSize hosts = hosts.length ∧
    (acceptLoop (worldSize hosts) arrivals).length = worldSize hosts ∧
    (acceptLoop (worldSize hosts) arrivals)[0]? = some none ∧
    (∀ i, 1 ≤ i → i < worldSize hosts →
      (acceptLoop (worldSize hosts) arrivals)[i]? =
        some (some (arrivals (i - 1)))) ∧
    (acceptLoop (worldSize hosts) arrivals).countP (fun c => c.isSome)
      = worldSize hosts - 1 ∧
    (∀ (o : MasterOutcome) (a : Option String) (s : Bool),
      (runTrainMaster o a s).events[0]? = some Event.workersAccepted ∧
      (runTrainMaster o a s).events[1]? = some Event.barrierMaster) := by
  obtain ⟨hget, hfirst⟩ := pyIndex_spec current hosts r hr
  have hlen : r < hosts.length := by
    rcases List.getElem?_eq_some.1 hget with ⟨h, -⟩
    exact h
  have hNle : 1 ≤ worldSize hosts := by omega
  have heq := acceptLoop_eq (worldSize hosts) arrivals hNle
  refine ⟨hlen, hget, hfirst, rfl, ?_, ?_, ?_, ?_, ?_⟩
  · rw [heq]
    simp [List.length_range']
    omega
  · rw [heq]
    simp
  · intro i h1 h2
    unfold acceptLoop
    rw [acceptFold_getElem]
    rw [if_pos (by simp [List.length_replicate]; omega)]
  · rw [heq]
    rw [List.countP_cons]
    simp only [Option.isSome_none, Bool.false_eq_true, if_neg, if_false,
      Nat.add_zero, List.countP_map]
    have hc : List.countP
        ((fun c : Option Nat => c.isSome) ∘ fun i => some (arrivals (i - 1)))
        (List.range' 1 (worldSize hosts - 1))
        = (List.range' 1 (worldSize hosts - 1)).length :=
      List.countP_eq_length.2 (fun a _ => rfl)
    rw [hc]
    simp [List.length_range']
  · intro o a s
    cases o with
    | result b => exact ⟨rfl, rfl⟩
    | fault f => cases f <;> exact ⟨rfl, rfl⟩

/-- Witness for C8 on the three-host topology with current host at index 1. -/
theorem claim_c8_topology_accept_witness :
    (1 : Nat) < worldSize ["hostA", "hostB", "hostC"] ∧
    ["hostA", "hostB", "hostC"][1]? = some "hostB" ∧
    (acceptLoop (worldSize ["hostA", "hostB", "hostC"])
      (fun k => k)).countP (fun c => c.isSome)
      = worldSize ["hostA", "hostB", "hostC"] - 1 := by
  have h := claim_c8_topology_accept ["hostA", "hostB", "hostC"] "hostB"
    (fun k => k) 1 (by decide) (by decide)
  exact ⟨h.1, h.2.1, h.2.2.2.2.2.2.2.1⟩

end SagemakerTrain
